import Mathlib

/-!
Shallow embedding of the DataForgeAI web service (src/app/main.py and
src/app/schemas.py): a FastAPI application with one POST route
`/process_url`, a pydantic model `URLData` with the single field
`urls : dict[str, Any]`, a constant success response, and a CORS
middleware configured with wildcard origins, methods and headers.
-/

/-- A JSON value, as parsed from a request body. Objects are association
lists from string keys to values (Python dicts cannot hold duplicate
keys; lookup takes the first match). Numbers are modelled as integers. -/
inductive Json where
  | null
  | bool (b : Bool)
  | num (n : Int)
  | str (s : String)
  | arr (elems : List Json)
  | obj (fields : List (String × Json))

/-- First-match lookup of a key in a JSON object's field list
(Python dict access after parsing). -/
def lookupField : List (String × Json) → String → Option Json
  | [], _ => none
  | (k, v) :: rest, key => if k = key then some v else lookupField rest key

/-- Whether a JSON value is an object (a mapping). -/
def Json.isObj : Json → Bool
  | .obj _ => true
  | _ => false

/-- src/app/schemas.py: `class URLData(BaseModel): urls: dict[str, Any]`. -/
structure URLData where
  urls : List (String × Json)

/-- Pydantic validation of a request body against `URLData`: the body
must be a JSON object whose `urls` field is present and is itself a
JSON object (a mapping from string keys to arbitrary values); extra
top-level fields are ignored (pydantic default). Any other shape fails
validation. -/
def URLData.validate (body : Json) : Option URLData :=
  match body with
  | .obj fields =>
    match lookupField fields "urls" with
    | some (.obj m) => some ⟨m⟩
    | _ => none
  | _ => none

/-- src/app/main.py: the body of the `process_url` handler — it ignores
its validated argument and returns the constant `{"status": "received"}`. -/
def process_url (_item : URLData) : Json :=
  Json.obj [("status", Json.str "received")]

/-- The constant success body `{"status": "received"}`. -/
def successBody : Json := Json.obj [("status", Json.str "received")]

/-- Outcome of one request to the endpoint: either HTTP 200 with a JSON
body produced by the handler, or the framework-default validation-error
response (HTTP 422). The source defines no other outcome. -/
inductive HandlerResult where
  | ok (body : Json)
  | validationError

/-- HTTP status code of a handler outcome: 200 on success, 422 for the
framework's request-validation error. -/
def HandlerResult.statusCode : HandlerResult → Nat
  | .ok _ => 200
  | .validationError => 422

/-- One POST to `/process_url`: FastAPI validates the body against
`URLData` and calls `process_url` on success; a body failing validation
is answered with the framework-default validation error. -/
def handleRequest (body : Json) : HandlerResult :=
  match URLData.validate body with
  | some item => .ok (process_url item)
  | none => .validationError

/-- The routes registered on the application: the single decorator
`@app.post("/process_url")` in src/app/main.py, as (method, path). -/
def registeredRoutes : List (String × String) := [("POST", "/process_url")]

/-- Request dispatch: a request reaches a handler exactly when its
method and path match a registered route; otherwise no handler runs. -/
def dispatch (method path : String) (body : Json) : Option HandlerResult :=
  if (method, path) ∈ registeredRoutes then some (handleRequest body) else none

/-- CORS middleware configuration, as in `app.add_middleware(...)`. -/
structure CORSConfig where
  allow_origins : List String
  allow_methods : List String
  allow_headers : List String
deriving DecidableEq, Repr

/-- src/app/main.py lines 8–13: wildcard origins, methods and headers. -/
def corsConfig : CORSConfig :=
  { allow_origins := ["*"], allow_methods := ["*"], allow_headers := ["*"] }

/-- CORSMiddleware's origin check: an origin is allowed when the
configured list contains the wildcard or the origin itself. -/
def corsAllowsOrigin (cfg : CORSConfig) (origin : String) : Bool :=
  cfg.allow_origins.contains "*" || cfg.allow_origins.contains origin

/-- A run of the (stateless) service on a sequence of request bodies:
each request is handled independently; the source keeps no mutable
state between requests. -/
def runServer (requests : List Json) : List HandlerResult :=
  requests.map handleRequest

-- Sanity checks of the embedding on concrete inputs.
example : handleRequest (Json.obj [("urls", Json.obj [])]) =
    HandlerResult.ok successBody := rfl
example : handleRequest (Json.obj []) = HandlerResult.validationError := rfl
example : handleRequest (Json.str "hi") = HandlerResult.validationError := rfl
example : handleRequest (Json.obj [("urls", Json.num 3)]) =
    HandlerResult.validationError := rfl

/-- If a key is absent from the first field list, lookup in the
concatenation falls through to the second list. -/
theorem lookupField_append_of_none (l2 : List (String × Json)) (k : String) :
    ∀ l1 : List (String × Json), lookupField l1 k = none →
      lookupField (l1 ++ l2) k = lookupField l2 k
  | [], _ => rfl
  | (k1, v1) :: rest, h => by
    rw [lookupField] at h
    by_cases hk : k1 = k
    · rw [if_pos hk] at h; exact absurd h (by simp)
    · rw [if_neg hk] at h
      rw [List.cons_append, lookupField, if_neg hk]
      exact lookupField_append_of_none l2 k rest h

/-- C1: every request body that is a JSON object containing a `urls`
field whose value is a mapping (including the empty mapping) is answered
with HTTP 200 and the body exactly `{"status": "received"}`. -/
theorem C1_valid_payload_returns_received (fields m : List (String × Json))
    (h : lookupField fields "urls" = some (Json.obj m)) :
    handleRequest (Json.obj fields) = HandlerResult.ok successBody ∧
    (handleRequest (Json.obj fields)).statusCode = 200 := by
  simp [handleRequest, URLData.validate, h, process_url, successBody,
    HandlerResult.statusCode]

/-- Witness for C1 at the concrete body `{"urls": {}}`. -/
theorem C1_valid_payload_returns_received_witness :
    lookupField [("urls", Json.obj [])] "urls" = some (Json.obj []) ∧
    (handleRequest (Json.obj [("urls", Json.obj [])]) = HandlerResult.ok successBody ∧
     (handleRequest (Json.obj [("urls", Json.obj [])])).statusCode = 200) :=
  ⟨rfl, C1_valid_payload_returns_received [("urls", Json.obj [])] [] rfl⟩

/-- C2: the endpoint returns the fixed success acknowledgement iff the
body validates against the `URLData` schema, and every outcome is either
that acknowledgement or the framework validation error — no other error
class exists. -/
theorem C2_ack_iff_schema_valid (body : Json) :
    (handleRequest body = HandlerResult.ok successBody ↔
      (URLData.validate body).isSome = true) ∧
    (handleRequest body = HandlerResult.ok successBody ∨
      handleRequest body = HandlerResult.validationError) := by
  cases hv : URLData.validate body <;>
    simp_all [handleRequest, process_url, successBody]

/-- C3: a JSON-object body lacking the `urls` field is answered with a
client error (HTTP 4xx), not the success acknowledgement. -/
theorem C3_missing_urls_client_error (fields : List (String × Json))
    (h : lookupField fields "urls" = none) :
    handleRequest (Json.obj fields) = HandlerResult.validationError ∧
    400 ≤ (handleRequest (Json.obj fields)).statusCode ∧
    (handleRequest (Json.obj fields)).statusCode < 500 := by
  simp [handleRequest, URLData.validate, h, HandlerResult.statusCode]

/-- Witness for C3 at the concrete body `{"other": 1}`. -/
theorem C3_missing_urls_client_error_witness :
    lookupField [("other", Json.num 1)] "urls" = none ∧
    (handleRequest (Json.obj [("other", Json.num 1)]) = HandlerResult.validationError ∧
     400 ≤ (handleRequest (Json.obj [("other", Json.num 1)])).statusCode ∧
     (handleRequest (Json.obj [("other", Json.num 1)])).statusCode < 500) :=
  ⟨rfl, C3_missing_urls_client_error [("other", Json.num 1)] rfl⟩

/-- C4: a body whose `urls` field holds a non-mapping value (string,
number, array, boolean or null) is answered with a client error (HTTP
4xx), not the success acknowledgement. -/
theorem C4_non_mapping_urls_client_error (fields : List (String × Json)) (v : Json)
    (h1 : lookupField fields "urls" = some v) (h2 : v.isObj = false) :
    handleRequest (Json.obj fields) = HandlerResult.validationError ∧
    400 ≤ (handleRequest (Json.obj fields)).statusCode ∧
    (handleRequest (Json.obj fields)).statusCode < 500 := by
  cases v <;>
    simp_all [handleRequest, URLData.validate, Json.isObj, HandlerResult.statusCode]

/-- Witness for C4 at the concrete body `{"urls": "x"}`. -/
theorem C4_non_mapping_urls_client_error_witness :
    lookupField [("urls", Json.str "x")] "urls" = some (Json.str "x") ∧
    (Json.str "x").isObj = false ∧
    (handleRequest (Json.obj [("urls", Json.str "x")]) = HandlerResult.validationError ∧
     400 ≤ (handleRequest (Json.obj [("urls", Json.str "x")])).statusCode ∧
     (handleRequest (Json.obj [("urls", Json.str "x")])).statusCode < 500) :=
  ⟨rfl, rfl, C4_non_mapping_urls_client_error [("urls", Json.str "x")] (Json.str "x") rfl rfl⟩

/-- C5: the success response is static — any two bodies that pass schema
validation receive identical responses, so the response does not depend
on the contents of the `urls` mapping. -/
theorem C5_response_independent_of_payload (b1 b2 : Json)
    (h1 : (URLData.validate b1).isSome = true)
    (h2 : (URLData.validate b2).isSome = true) :
    handleRequest b1 = handleRequest b2 := by
  cases hv1 : URLData.validate b1 <;> cases hv2 : URLData.validate b2 <;>
    simp_all [handleRequest, process_url]

/-- Witness for C5 at the bodies `{"urls": {}}` and `{"urls": {"a": 1}}`. -/
theorem C5_response_independent_of_payload_witness :
    (URLData.validate (Json.obj [("urls", Json.obj [])])).isSome = true ∧
    (URLData.validate (Json.obj [("urls", Json.obj [("a", Json.num 1)])])).isSome = true ∧
    handleRequest (Json.obj [("urls", Json.obj [])]) =
      handleRequest (Json.obj [("urls", Json.obj [("a", Json.num 1)])]) :=
  ⟨rfl, rfl, C5_response_independent_of_payload _ _ rfl rfl⟩

/-- C6: request handling is stateless and effect-free — the response to
a request is the pure value `handleRequest` of that request alone,
independent of every previously handled request. -/
theorem C6_response_independent_of_history (hist : List Json) (r : Json) :
    (runServer (hist ++ [r])).getLast? = some (handleRequest r) := by
  simp [runServer]

/-- C7: the CORS configuration uses the wildcard list for origins,
methods and headers, and its origin check accepts every origin. -/
theorem C7_cors_allows_all :
    corsConfig.allow_origins = ["*"] ∧ corsConfig.allow_methods = ["*"] ∧
    corsConfig.allow_headers = ["*"] ∧
    ∀ origin : String, corsAllowsOrigin corsConfig origin = true := by
  refine ⟨rfl, rfl, rfl, fun origin => ?_⟩
  simp [corsAllowsOrigin, corsConfig]

/-- C8: the application registers exactly the single route
`POST /process_url`, and dispatch reaches a handler precisely for that
method and path. -/
theorem C8_single_route (method path : String) (body : Json) :
    registeredRoutes = [("POST", "/process_url")] ∧
    ((dispatch method path body).isSome = true ↔
      method = "POST" ∧ path = "/process_url") := by
  refine ⟨rfl, ?_⟩
  unfold dispatch
  split <;> simp_all [registeredRoutes, Prod.ext_iff]

/-- C9: schema validation accepts arbitrary JSON values inside the
`urls` mapping: every mapping validates to `URLData` and the request
succeeds with the fixed acknowledgement. -/
theorem C9_any_values_accepted (m : List (String × Json)) :
    URLData.validate (Json.obj [("urls", Json.obj m)]) = some ⟨m⟩ ∧
    handleRequest (Json.obj [("urls", Json.obj m)]) = HandlerResult.ok successBody := by
  constructor <;>
    simp [URLData.validate, lookupField, handleRequest, process_url, successBody]

/-- C10: extra top-level fields beside the required `urls` mapping are
ignored: the payload still validates and the success acknowledgement is
returned. -/
theorem C10_extra_fields_ignored (pre post m : List (String × Json))
    (h : lookupField pre "urls" = none) :
    handleRequest (Json.obj (pre ++ ("urls", Json.obj m) :: post)) =
      HandlerResult.ok successBody := by
  have hl : lookupField (pre ++ ("urls", Json.obj m) :: post) "urls" =
      some (Json.obj m) := by
    rw [lookupField_append_of_none _ _ pre h, lookupField, if_pos rfl]
  simp [handleRequest, URLData.validate, hl, process_url, successBody]

/-- Witness for C10 at the concrete body `{"extra": 1, "urls": {}}`. -/
theorem C10_extra_fields_ignored_witness :
    lookupField [("extra", Json.num 1)] "urls" = none ∧
    handleRequest (Json.obj ([("extra", Json.num 1)] ++ ("urls", Json.obj []) :: [])) =
      HandlerResult.ok successBody :=
  ⟨rfl, C10_extra_fields_ignored [("extra", Json.num 1)] [] [] rfl⟩
